import Mathlib

/-!
Shallow embedding of the chatty-backend bootstrap and transport layer:
the error taxonomy (`src/shared/globals/helpers/error-handler.ts`), the
environment configuration (`src/config.ts`), the database bootstrap
(`src/setupDatabase.ts`) and the server lifecycle (`src/setupServer.ts`,
`src/app.ts`).  Pure functions of the source become Lean functions; the
side-effecting startup code becomes functions returning explicit event
traces.  The theorems at the end settle the specification claims.
-/

/-! ### HTTP status constants (from the http-status-codes library, as used by the source) -/

namespace HTTP_STATUS

def BAD_REQUEST : Nat := 400

def UNAUTHORIZED : Nat := 401

def NOT_FOUND : Nat := 404

def REQUEST_TOO_LONG : Nat := 413

def SERVICE_UNAVAILABLE : Nat := 503

end HTTP_STATUS

/-! ### Error taxonomy (error-handler.ts)

The source declares an abstract class `CustomError` with abstract fields
`statusCode` and `status`, and six concrete subclasses, each fixing those
two fields.  We embed the closed hierarchy as a tagged enumeration of the
concrete subclasses; `statusCode` and `status` read off what each
subclass declaration assigns. -/

/-- The six concrete subclasses of `CustomError` declared in error-handler.ts. -/
inductive ErrorKind where
  | JoiRequestValidationError
  | BadRequestError
  | NotFoundError
  | NotAuthourizeError
  | FileTooLargeError
  | ServerError
deriving DecidableEq, Repr

/-- The `statusCode` field each subclass assigns (error-handler.ts lines 36-88). -/
def ErrorKind.statusCode : ErrorKind → Nat
  | .JoiRequestValidationError => HTTP_STATUS.BAD_REQUEST
  | .BadRequestError => HTTP_STATUS.BAD_REQUEST
  | .NotFoundError => HTTP_STATUS.NOT_FOUND
  | .NotAuthourizeError => HTTP_STATUS.UNAUTHORIZED
  | .FileTooLargeError => HTTP_STATUS.REQUEST_TOO_LONG
  | .ServerError => HTTP_STATUS.SERVICE_UNAVAILABLE

/-- The `status` field each subclass assigns; every subclass sets it to the
string "error". -/
def ErrorKind.status : ErrorKind → String
  | .JoiRequestValidationError => "error"
  | .BadRequestError => "error"
  | .NotFoundError => "error"
  | .NotAuthourizeError => "error"
  | .FileTooLargeError => "error"
  | .ServerError => "error"

/-- The `IError` record shape returned by `serializeErrors` (error-handler.ts
lines 13-17). -/
structure IError where
  message : String
  statusCode : Nat
  status : String
deriving DecidableEq, Repr

/-- `CustomError.serializeErrors` (error-handler.ts lines 27-33): a `CustomError`
carries the constructor message and its subclass fields, and `serializeErrors`
returns the record of the three. -/
def serializeErrors (kind : ErrorKind) (message : String) : IError :=
  { message := message
    status := kind.status
    statusCode := kind.statusCode }

/-! ### Configuration (config.ts)

`Config`'s constructor reads seven environment variables, substituting a
fallback for each via JavaScript `||` (which replaces both `undefined` and
the empty string).  `validateConfig` walks `Object.entries(this)` and throws
on the first `undefined` value.  At runtime `Object.entries` also enumerates
the TypeScript-private `DEFAULT_DATABASE_URL` field, which always holds its
initializer. -/

/-- The process environment restricted to the variables config.ts reads;
`none` models an unset variable. -/
structure Env where
  DATABASE_URL : Option String
  JWT_TOKEN : Option String
  NODE_ENV : Option String
  SECRET_KEY_ONE : Option String
  SECRET_KEY_TWO : Option String
  CLIENT_URL : Option String
  REDIS_HOST : Option String
deriving DecidableEq, Repr

/-- An environment with every variable unset. -/
def emptyEnv : Env :=
  { DATABASE_URL := none
    JWT_TOKEN := none
    NODE_ENV := none
    SECRET_KEY_ONE := none
    SECRET_KEY_TWO := none
    CLIENT_URL := none
    REDIS_HOST := none }

/-- JavaScript `process.env.X || d`: an unset variable is `undefined` and the
empty string is falsy, so both fall back to the default. -/
def jsOr (v : Option String) (d : String) : String :=
  match v with
  | none => d
  | some s => if s = "" then d else s

/-- `private readonly DEFAULT_DATABASE_URL` (config.ts line 105). -/
def DEFAULT_DATABASE_URL : String := "mongodb://127.0.0.1:27017/chattyapp-backend"

/-- The `Config` class: its seven public fields are declared
`string | undefined`, hence `Option String` here. -/
structure Config where
  DATABASE_URL : Option String
  JWT_TOKEN : Option String
  NODE_ENV : Option String
  SECRET_KEY_ONE : Option String
  SECRET_KEY_TWO : Option String
  CLIENT_URL : Option String
  REDIS_HOST : Option String
deriving DecidableEq, Repr

/-- The `Config` constructor (config.ts lines 108-116): every field is
assigned `process.env.X || fallback`, so every field is a defined string. -/
def Config.ofEnv (env : Env) : Config :=
  { DATABASE_URL := some (jsOr env.DATABASE_URL DEFAULT_DATABASE_URL)
    JWT_TOKEN := some (jsOr env.JWT_TOKEN "1234")
    NODE_ENV := some (jsOr env.NODE_ENV "")
    SECRET_KEY_ONE := some (jsOr env.SECRET_KEY_ONE "")
    SECRET_KEY_TWO := some (jsOr env.SECRET_KEY_TWO "")
    CLIENT_URL := some (jsOr env.CLIENT_URL "")
    REDIS_HOST := some (jsOr env.REDIS_HOST "") }

/-- `Object.entries(this)` for a `Config` instance: the seven public fields in
declaration order, followed by the runtime-visible private
`DEFAULT_DATABASE_URL` field, which always holds its initializer. -/
def Config.entries (c : Config) : List (String × Option String) :=
  [("DATABASE_URL", c.DATABASE_URL),
   ("JWT_TOKEN", c.JWT_TOKEN),
   ("NODE_ENV", c.NODE_ENV),
   ("SECRET_KEY_ONE", c.SECRET_KEY_ONE),
   ("SECRET_KEY_TWO", c.SECRET_KEY_TWO),
   ("CLIENT_URL", c.CLIENT_URL),
   ("REDIS_HOST", c.REDIS_HOST),
   ("DEFAULT_DATABASE_URL", some DEFAULT_DATABASE_URL)]

/-- The `for (const [key, value] of Object.entries(this))` loop body of
`validateConfig`: throw on the first `undefined` value. -/
def validateEntries : List (String × Option String) → Except String Unit
  | [] => Except.ok ()
  | (key, value) :: rest =>
    match value with
    | none => Except.error ("Configuration " ++ key ++ " is undefined.")
    | some _ => validateEntries rest

/-- `Config.validateConfig` (config.ts lines 127-136): `Except.error m` models
`throw new Error(m)`, `Except.ok ()` a normal return. -/
def Config.validateConfig (c : Config) : Except String Unit :=
  validateEntries c.entries

/-! ### Middleware pipeline (setupServer.ts, registration order)

`ChattyServer.start` calls the four installer methods in a fixed order and
then `startServer`.  Each installer registers middleware through `app.use`
(or `app.all`); we record the registrations each installer performs, in the
order the source performs them. -/

/-- One middleware registration made against the express app. -/
inductive MwStage where
  | cookieSession
  | hpp
  | helmet
  | cors
  | compression
  | jsonBodyLimit
  | urlencodedBodyLimit
  | applicationRoutes
  | notFoundAll
  | errorTranslation
deriving DecidableEq, Repr

/-- `ChattyServer.securityMiddleware` (setupServer.ts lines 48-77):
cookie-session, hpp, helmet, cors, in that order. -/
def securityMiddleware : List MwStage :=
  [MwStage.cookieSession, MwStage.hpp, MwStage.helmet, MwStage.cors]

/-- `ChattyServer.standardMiddleware` (setupServer.ts lines 78-87):
compression, then `json` and `urlencoded` body parsing, both with a
50 megabyte limit. -/
def standardMiddleware : List MwStage :=
  [MwStage.compression, MwStage.jsonBodyLimit, MwStage.urlencodedBodyLimit]

/-- `ChattyServer.routesMiddleware` (setupServer.ts lines 90-92): registers
all application routes via `applicationRoutes(app)`. -/
def routesMiddleware : List MwStage :=
  [MwStage.applicationRoutes]

/-- `ChattyServer.globalErrorHandler` (setupServer.ts lines 99-127): the
catch-all `app.all` not-found route, then the error-translation middleware. -/
def globalErrorHandler : List MwStage :=
  [MwStage.notFoundAll, MwStage.errorTranslation]

/-- The middleware registrations performed by `ChattyServer.start`
(setupServer.ts lines 40-46), in call order; the final call, `startServer`,
registers no middleware. -/
def startRegistrations : List MwStage :=
  securityMiddleware ++ standardMiddleware ++ routesMiddleware ++ globalErrorHandler

/-! ### Not-found and error-translation handlers (setupServer.ts lines 114-126) -/

/-- The JSON body sent by the catch-all route. -/
structure NotFoundBody where
  message : String
deriving DecidableEq, Repr

/-- The `app.all` catch-all handler (setupServer.ts lines 114-116):
`res.status(HTTP_STATUS.NOT_FOUND).json(/* message: originalUrl not found */)`.
Returns the response status paired with the JSON body. -/
def notFoundHandler (originalUrl : String) : Nat × NotFoundBody :=
  (HTTP_STATUS.NOT_FOUND, { message := originalUrl ++ " not found" })

/-- An error reaching the error-translation middleware: either an instance of
`CustomError` (one of the six subclasses, with its message) or any other
thrown value, carried opaquely. -/
inductive AppError where
  | customErr (kind : ErrorKind) (message : String)
  | nonCustom (detail : String)
deriving DecidableEq, Repr

/-- What the error-translation middleware does after logging: send a JSON
response, or invoke `next()`. -/
inductive ErrorMwOutcome where
  | respond (statusCode : Nat) (body : IError)
  | callNext
deriving DecidableEq, Repr

/-- True exactly when the outcome sends a response to the client. -/
def ErrorMwOutcome.isRespond : ErrorMwOutcome → Bool
  | .respond _ _ => true
  | .callNext => false

/-- The error-translation middleware (setupServer.ts lines 118-126): it logs
the error (first component: the list of errors passed to `log.error`), then
if the error is an instance of `CustomError` it responds with
`error.statusCode` and `error.serializeErrors()`; otherwise it calls
`next()`. -/
def errorTranslationMiddleware (error : AppError) : List AppError × ErrorMwOutcome :=
  ([error],
   match error with
   | AppError.customErr kind message =>
     ErrorMwOutcome.respond kind.statusCode (serializeErrors kind message)
   | AppError.nonCustom _ => ErrorMwOutcome.callNext)

/-! ### Startup event traces (setupDatabase.ts, setupServer.ts, app.ts)

The side-effecting startup code is embedded as functions from the outcome of
each fallible external call (database connect, the two broker-client
connects) to the trace of observable events it performs. -/

/-- Observable startup events: log calls, connection completions, the HTTP
listen call, and `process.exit`. -/
inductive Ev where
  | uncaughtConfigError (msg : String)
  | dbLogConnected
  | dbLogConnectError
  | newHttpServer
  | pubConnect
  | subConnect
  | adapterInstalled
  | logProcessStarted
  | httpListen (port : Nat)
  | logStartError
  | processExit (code : Nat)
deriving DecidableEq, Repr

/-- True iff the trace contains a `process.exit` call. -/
def hasExit (l : List Ev) : Bool :=
  l.any fun e =>
    match e with
    | Ev.processExit _ => true
    | _ => false

/-- The ports passed to `httpServer.listen` along a trace. -/
def portsListened (l : List Ev) : List Nat :=
  l.filterMap fun e =>
    match e with
    | Ev.httpListen p => some p
    | _ => none

/-- `const SERVER_PORT = 5000` (setupServer.ts line 20). -/
def SERVER_PORT : Nat := 5000

/-- The inner `connect` closure of `setupDatabase.ts` (lines 11-24):
`mongoose.connect(config.DATABASE_URL)` then on success logs
"Successfully connected to database", and on rejection logs the error and
calls `process.exit(1)`.  `ok` is whether the connect promise fulfills. -/
def connect (ok : Bool) : List Ev :=
  if ok then [Ev.dbLogConnected]
  else [Ev.dbLogConnectError, Ev.processExit 1]

/-- What the exported `databaseConnection` function leaves behind: the events
of the initial `connect()` call, and the handler it registers for mongoose's
disconnected event — which is `connect` itself
(`mongoose.connection.on('disconnected', connect)`, setupDatabase.ts line 28). -/
structure DatabaseConnectionResult where
  initialEvents : List Ev
  onDisconnected : Bool → List Ev

/-- `setupDatabase.ts` lines 9-29. -/
def databaseConnection (initialOk : Bool) : DatabaseConnectionResult :=
  { initialEvents := connect initialOk
    onDisconnected := connect }

/-- The socket.io `Server` options built in `createSocketIO`
(setupServer.ts lines 148-153). -/
structure SocketIoOptions where
  corsOrigin : Option String
  corsMethods : List String
deriving DecidableEq, Repr

/-- A redis client as built by `createClient({ url: ... })`. -/
structure RedisClient where
  url : Option String
deriving DecidableEq, Repr

/-- `ChattyServer.createSocketIO` (setupServer.ts lines 144-163): builds the
socket.io server, creates the pub client from `config.REDIS_HOST`, duplicates
it into the sub client, then `await Promise.all([pubClient.connect(),
subClient.connect()])` and installs the redis adapter.  `pubOk` and `subOk`
are whether each connect promise fulfills; a connect that fulfills emits its
event, and the combined await succeeds (second component `true`) only when
both do — otherwise the await throws and the adapter is never installed. -/
def createSocketIo (cfg : Config) (pubOk subOk : Bool) : List Ev × Bool :=
  let _io : SocketIoOptions :=
    { corsOrigin := cfg.CLIENT_URL
      corsMethods := ["GET", "POST", "PUT", "DELETE", "OPTIONS"] }
  let pubClient : RedisClient := { url := cfg.REDIS_HOST }
  let _subClient : RedisClient := pubClient
  ((if pubOk then [Ev.pubConnect] else []) ++
     (if subOk then [Ev.subConnect] else []) ++
     (if pubOk && subOk then [Ev.adapterInstalled] else []),
   pubOk && subOk)

/-- `ChattyServer.startHttpServer` (setupServer.ts lines 169-179): logs the
process-started line and calls `httpServer.listen(SERVER_PORT, ...)`. -/
def startHttpServer : List Ev :=
  [Ev.logProcessStarted, Ev.httpListen SERVER_PORT]

/-- `ChattyServer.startServer` (setupServer.ts lines 129-142): inside `try`,
builds the HTTP server, awaits `createSocketIO`, then calls `startHttpServer`
and the (empty) `socketIOConnections`; the `catch` block only does
`log.error(error)`. -/
def startServer (cfg : Config) (pubOk subOk : Bool) : List Ev :=
  let r := createSocketIo cfg pubOk subOk
  Ev.newHttpServer :: r.1 ++ (if r.2 then startHttpServer else [Ev.logStartError])

/-- `Application.initialize` of app.ts (lines 40-49, modelling the trace):
`loadConfig` runs `config.validateConfig()` — an uncaught throw there ends
the process with a non-zero status — then `databaseConnection()` starts the
initial database connect, then `server.start()` registers the middleware
pipeline (`startRegistrations`, modelled separately) and runs `startServer`.
The database connect promise settles asynchronously; its events are placed
before the server events here, which is irrelevant to the claims proved
below (they fix `dbOk := true` or inspect only which events occur). -/
def appInit (env : Env) (dbOk pubOk subOk : Bool) : List Ev :=
  match Config.validateConfig (Config.ofEnv env) with
  | Except.error msg => [Ev.uncaughtConfigError msg, Ev.processExit 1]
  | Except.ok _ =>
    (databaseConnection dbOk).initialEvents ++ startServer (Config.ofEnv env) pubOk subOk

/-- Checks that along the trace, every `httpServer.listen` call is preceded
by both a completed pub-client connect and a completed sub-client connect. -/
def listenPrecededAux (seenPub seenSub : Bool) : List Ev → Bool
  | [] => true
  | e :: rest =>
    match e with
    | Ev.httpListen _ => seenPub && seenSub && listenPrecededAux seenPub seenSub rest
    | Ev.pubConnect => listenPrecededAux true seenSub rest
    | Ev.subConnect => listenPrecededAux seenPub true rest
    | _ => listenPrecededAux seenPub seenSub rest

/-- True iff no listen call happens before both broker links are connected. -/
def listenPreceded (l : List Ev) : Bool :=
  listenPrecededAux false false l

/-! ### Claim theorems -/

/-- Claim C4 (confirmed): for every error-taxonomy kind and every message
string, `serializeErrors` returns exactly the record of the unchanged
message, the status string "error", and the documented status code —
400 for JoiRequestValidationError, 400 for BadRequestError, 401 for
NotAuthourizeError, 404 for NotFoundError, 413 for FileTooLargeError,
503 for ServerError. -/
theorem claim_C4_serializeErrors : ∀ m : String,
    serializeErrors ErrorKind.JoiRequestValidationError m =
      { message := m, statusCode := 400, status := "error" } ∧
    serializeErrors ErrorKind.BadRequestError m =
      { message := m, statusCode := 400, status := "error" } ∧
    serializeErrors ErrorKind.NotAuthourizeError m =
      { message := m, statusCode := 401, status := "error" } ∧
    serializeErrors ErrorKind.NotFoundError m =
      { message := m, statusCode := 404, status := "error" } ∧
    serializeErrors ErrorKind.FileTooLargeError m =
      { message := m, statusCode := 413, status := "error" } ∧
    serializeErrors ErrorKind.ServerError m =
      { message := m, statusCode := 503, status := "error" } :=
  fun _ => ⟨rfl, rfl, rfl, rfl, rfl, rfl⟩

/-- Claim C1, counterexample: a failure that is not a `CustomError` instance
(here the thrown value "boom") reaching the error-translation middleware is
logged, but the middleware sends NO response at all — it calls `next()` —
so in particular it does not return a generic failure record with a
500-class status, contrary to the claim. -/
theorem claim_C1_counterexample :
    ErrorMwOutcome.isRespond
        (errorTranslationMiddleware (AppError.nonCustom "boom")).2 = false ∧
    (errorTranslationMiddleware (AppError.nonCustom "boom")).1 =
      [AppError.nonCustom "boom"] ∧
    (errorTranslationMiddleware (AppError.nonCustom "boom")).2 =
      ErrorMwOutcome.callNext :=
  ⟨rfl, rfl, rfl⟩

/-- Claim C1 as amended (proved): for every failure reaching the
error-translation stage that is not an instance of `CustomError`, the stage
logs it and then delegates to the next handler via `next()`; the stage
itself sends no response body and no status code to the client. -/
theorem claim_C1_amended_nonCustomDelegates : ∀ detail : String,
    errorTranslationMiddleware (AppError.nonCustom detail) =
      ([AppError.nonCustom detail], ErrorMwOutcome.callNext) :=
  fun _ => rfl

/-- Claim C7 (confirmed): every request reaching the catch-all route is
answered with status 404 and the JSON body whose single field `message` is
the request's original URL followed by " not found"; in particular the
path "/nope" yields status 404 and message "/nope not found". -/
theorem claim_C7_notFound : ∀ url : String,
    notFoundHandler url = (404, { message := url ++ " not found" }) ∧
    notFoundHandler "/nope" = (404, { message := "/nope not found" }) :=
  fun _ => ⟨rfl, rfl⟩

/-- Claim C6 (confirmed): the middleware pipeline is installed in the fixed
order security stage (cookie-session, hpp, helmet, cors), size-bounded body
decoding (compression, 50mb json, 50mb urlencoded), route dispatch,
not-found stage, error-translation stage: every security and body-size
registration has a smaller index than the route registration, and the
not-found and error-translation registrations come after it. -/
theorem claim_C6_middlewareOrder :
    startRegistrations =
      securityMiddleware ++ standardMiddleware ++ routesMiddleware ++ globalErrorHandler ∧
    (securityMiddleware ++ standardMiddleware).all
      (fun s => startRegistrations.indexOf s <
        startRegistrations.indexOf MwStage.applicationRoutes) = true ∧
    startRegistrations.indexOf MwStage.applicationRoutes <
      startRegistrations.indexOf MwStage.notFoundAll ∧
    startRegistrations.indexOf MwStage.notFoundAll <
      startRegistrations.indexOf MwStage.errorTranslation :=
  ⟨rfl, by decide, by decide, by decide⟩

/-- Claim C8 (confirmed): if the initial database connect attempt rejects,
`databaseConnection` logs the error and calls `process.exit(1)`; a
disconnect after a successful initial connection instead runs the same
`connect` routine again (the registered disconnected-handler IS `connect`),
and when that reconnect succeeds it only logs success — no exit and no
client-visible event. -/
theorem claim_C8_database :
    (databaseConnection false).initialEvents = [Ev.dbLogConnectError, Ev.processExit 1] ∧
    (∀ initialOk : Bool, (databaseConnection initialOk).onDisconnected = connect) ∧
    (databaseConnection true).onDisconnected true = [Ev.dbLogConnected] ∧
    hasExit ((databaseConnection true).onDisconnected true) = false ∧
    hasExit (databaseConnection true).initialEvents = false :=
  ⟨rfl, fun _ => rfl, rfl, rfl, rfl⟩

/-- Claim C9 (confirmed): for every assignment of environment variables —
including all of them absent — the `Config` constructor gives every field a
defined (`some`) string value, falling back to the hardcoded database URL,
"1234" for the token secret and the empty string for the rest, so
`validateConfig`'s throw branch is unreachable and validation always
succeeds. -/
theorem claim_C9_configAlwaysValid : ∀ env : Env,
    ((Config.ofEnv env).DATABASE_URL.isSome = true ∧
     (Config.ofEnv env).JWT_TOKEN.isSome = true ∧
     (Config.ofEnv env).NODE_ENV.isSome = true ∧
     (Config.ofEnv env).SECRET_KEY_ONE.isSome = true ∧
     (Config.ofEnv env).SECRET_KEY_TWO.isSome = true ∧
     (Config.ofEnv env).CLIENT_URL.isSome = true ∧
     (Config.ofEnv env).REDIS_HOST.isSome = true) ∧
    Config.validateConfig (Config.ofEnv env) = Except.ok () ∧
    Config.ofEnv emptyEnv =
      { DATABASE_URL := some DEFAULT_DATABASE_URL
        JWT_TOKEN := some "1234"
        NODE_ENV := some ""
        SECRET_KEY_ONE := some ""
        SECRET_KEY_TWO := some ""
        CLIENT_URL := some ""
        REDIS_HOST := some "" } :=
  fun _ => ⟨⟨rfl, rfl, rfl, rfl, rfl, rfl, rfl⟩, rfl, rfl⟩

/-- Claim C2, counterexample: with EVERY required environment variable
absent, `validateConfig` succeeds, startup reaches the listening state
(`httpServer.listen` on port 5000 occurs in the trace), and the process
never exits — refuting the claim that a missing required setting is fatal
and prevents listening. -/
theorem claim_C2_counterexample :
    Config.validateConfig (Config.ofEnv emptyEnv) = Except.ok () ∧
    Ev.httpListen 5000 ∈ appInit emptyEnv true true true ∧
    hasExit (appInit emptyEnv true true true) = false := by
  refine ⟨rfl, ?_, rfl⟩
  decide

/-- Claim C2 as amended (proved): `validateConfig` would throw an error
naming a key only if the corresponding `Config` field were undefined, but
the constructor substitutes a fallback for every absent environment
variable, so for EVERY environment — in particular one missing any or all
required settings — validation succeeds, startup (with database and both
broker connects succeeding) reaches the listening state, and the process
does not terminate. -/
theorem claim_C2_amended_absentSettingNotFatal : ∀ env : Env,
    Config.validateConfig (Config.ofEnv env) = Except.ok () ∧
    Ev.httpListen SERVER_PORT ∈ appInit env true true true ∧
    hasExit (appInit env true true true) = false := by
  intro env
  refine ⟨rfl, ?_, rfl⟩
  show Ev.httpListen SERVER_PORT ∈
    [Ev.dbLogConnected, Ev.newHttpServer, Ev.pubConnect, Ev.subConnect,
     Ev.adapterInstalled, Ev.logProcessStarted, Ev.httpListen SERVER_PORT]
  simp

/-- Evaluation lemma: the trace of `startServer` does not depend on the
configuration, only on the outcome of the two broker connects. -/
theorem startServer_spec (cfg : Config) (pubOk subOk : Bool) :
    startServer cfg pubOk subOk =
      Ev.newHttpServer ::
        ((if pubOk then [Ev.pubConnect] else []) ++
           (if subOk then [Ev.subConnect] else []) ++
           (if pubOk && subOk then [Ev.adapterInstalled] else [])) ++
        (if pubOk && subOk then startHttpServer else [Ev.logStartError]) :=
  rfl

/-- Claim C3, counterexample: when the publish-side broker client fails to
connect (and likewise for any failing combination), `startServer` catches
the rejection and only logs it: the trace contains no `process.exit` call
at all, the HTTP server is never started, and the process is NOT terminated
— refuting the claim that broker-link failure at attach time is fatal. -/
theorem claim_C3_counterexample :
    hasExit (startServer (Config.ofEnv emptyEnv) false true) = false ∧
    Ev.logStartError ∈ startServer (Config.ofEnv emptyEnv) false true ∧
    Ev.httpListen SERVER_PORT ∉ startServer (Config.ofEnv emptyEnv) false true := by
  refine ⟨rfl, ?_, ?_⟩ <;> decide

/-- Claim C3 as amended (proved): if establishing either broker link (or
both) fails during attach, `startServer`'s catch block logs the error and
startup is abandoned without the HTTP server ever listening — but the
process does not exit: it is left running in a non-serving state rather
than failing fast. -/
theorem claim_C3_amended_brokerFailureLoggedNotFatal : ∀ cfg : Config,
    (hasExit (startServer cfg false true) = false ∧
     Ev.logStartError ∈ startServer cfg false true ∧
     Ev.httpListen SERVER_PORT ∉ startServer cfg false true) ∧
    (hasExit (startServer cfg true false) = false ∧
     Ev.logStartError ∈ startServer cfg true false ∧
     Ev.httpListen SERVER_PORT ∉ startServer cfg true false) ∧
    (hasExit (startServer cfg false false) = false ∧
     Ev.logStartError ∈ startServer cfg false false ∧
     Ev.httpListen SERVER_PORT ∉ startServer cfg false false) := by
  intro cfg
  refine ⟨⟨rfl, ?_, ?_⟩, ⟨rfl, ?_, ?_⟩, ⟨rfl, ?_, ?_⟩⟩ <;>
    rw [startServer_spec] <;> decide

/-- Claim C5 (confirmed): along every possible `startServer` trace — for
every configuration and every outcome of the two broker-client connects —
no `httpServer.listen` call ever occurs before both the publish client and
the subscribe client have completed connecting; and when both connects
succeed, the listen on `SERVER_PORT` does occur. -/
theorem claim_C5_listenAfterBothConnects : ∀ (cfg : Config) (pubOk subOk : Bool),
    listenPreceded (startServer cfg pubOk subOk) = true ∧
    Ev.httpListen SERVER_PORT ∈ startServer cfg true true := by
  intro cfg pubOk subOk
  refine ⟨?_, by rw [startServer_spec]; decide⟩
  cases pubOk <;> cases subOk <;> rw [startServer_spec] <;> decide

/-- Claim C10 (confirmed): `SERVER_PORT` is the hardcoded constant 5000,
`startHttpServer` listens on it, and for every configuration and every
connect outcome the set of ports ever passed to `httpServer.listen` is
exactly `[5000]` when startup succeeds and empty otherwise — no
configuration can change the listening port. -/
theorem claim_C10_portHardcoded :
    SERVER_PORT = 5000 ∧
    startHttpServer = [Ev.logProcessStarted, Ev.httpListen 5000] ∧
    ∀ (cfg : Config) (pubOk subOk : Bool),
      portsListened (startServer cfg pubOk subOk) =
        if pubOk && subOk then [5000] else [] := by
  refine ⟨rfl, rfl, ?_⟩
  intro cfg pubOk subOk
  cases pubOk <;> cases subOk <;> rfl
